import Mathlib

/-!
Verification development for the secondary-animation (spring bone) subsystem of
babylon-vrm-loader.

The embedding translates, over the real numbers:
  * `src/secondary-animation/vrm-spring-bone-logic.ts` — the per-segment verlet
    physics (`VRMSpringBoneLogic`): constructor, `update`, `collide`,
    `getCenterTranslatedPos`, `getCenterTranslatedWorldPos`;
  * `src/secondary-animation/spring-bone-controller.ts` — `SpringBoneController`:
    `constructColliderGroups`, `constructSprings`, `update` (delta clamp and
    per-chain drive), and the override selection in `ConstructSpringsOptions`.
Classes referenced by the controller whose sources are not in the tree
(`VRMSpringBone`, `ColliderGroup`, `SphereCollider`, `QuaternionHelper`,
`Vector3Helper`) are modelled from the spec; each such definition carries a
doc comment starting with `Modelled from the spec:`.

Vectors are triples of reals; Babylon.js vector semantics (in particular the
`normalizeFromLength` early-return when the length is 0 or 1) are transcribed
where they matter.  A second transcription of `update` over `JNum`
(real-or-NaN values with JavaScript NaN propagation) captures the behavior of
the `Number.isNaN` validity guard on non-finite absolute positions.
-/

noncomputable section

/-- A 3-component vector over the reals (Babylon.js `Vector3`), as `ℝ × ℝ × ℝ`
so that the product's additive-group and scalar-action structure applies. -/
abbrev Vec3 : Type := ℝ × ℝ × ℝ

namespace Vec3

/-- `Vector3.lengthSquared`: `x * x + y * y + z * z`. -/
def lenSq (v : Vec3) : ℝ := v.1 * v.1 + v.2.1 * v.2.1 + v.2.2 * v.2.2

/-- `Vector3.length`: square root of the squared length. -/
def len (v : Vec3) : ℝ := Real.sqrt (lenSq v)

/-- `Vector3.normalize` via Babylon's `normalizeFromLength`: when the length is
`0` or exactly `1` the vector is returned unchanged, otherwise it is scaled by
`1.0 / len`. -/
def normalize (v : Vec3) : Vec3 :=
  if len v = 0 ∨ len v = 1 then v else (1 / len v) • v

/-- `Vector3.Dot`. -/
def dot (a b : Vec3) : ℝ := a.1 * b.1 + a.2.1 * b.2.1 + a.2.2 * b.2.2

/-- `Vector3.Cross`. -/
def cross (a b : Vec3) : Vec3 :=
  ⟨a.2.1 * b.2.2 - a.2.2 * b.2.1,
   a.2.2 * b.1 - a.1 * b.2.2,
   a.1 * b.2.1 - a.2.1 * b.1⟩

theorem lenSq_nonneg (v : Vec3) : 0 ≤ lenSq v := by
  have := mul_self_nonneg v.1
  have := mul_self_nonneg v.2.1
  have := mul_self_nonneg v.2.2
  unfold lenSq
  linarith

theorem len_nonneg (v : Vec3) : 0 ≤ len v := Real.sqrt_nonneg _

theorem lenSq_eq_zero_iff (v : Vec3) : lenSq v = 0 ↔ v = 0 := by
  constructor
  · intro h
    simp only [lenSq] at h
    have hx : v.1 = 0 := by nlinarith [mul_self_nonneg v.1, mul_self_nonneg v.2.1, mul_self_nonneg v.2.2]
    have hy : v.2.1 = 0 := by nlinarith [mul_self_nonneg v.1, mul_self_nonneg v.2.1, mul_self_nonneg v.2.2]
    have hz : v.2.2 = 0 := by nlinarith [mul_self_nonneg v.1, mul_self_nonneg v.2.1, mul_self_nonneg v.2.2]
    exact Prod.ext hx (Prod.ext hy hz)
  · intro h
    subst h
    simp [lenSq]

theorem len_eq_zero_iff (v : Vec3) : len v = 0 ↔ v = 0 := by
  rw [len, Real.sqrt_eq_zero (lenSq_nonneg v), lenSq_eq_zero_iff]

theorem lenSq_smul (r : ℝ) (v : Vec3) : lenSq (r • v) = r ^ 2 * lenSq v := by
  simp only [lenSq, Prod.smul_fst, Prod.smul_snd, smul_eq_mul]
  ring

theorem len_smul (r : ℝ) (v : Vec3) : len (r • v) = |r| * len v := by
  rw [len, lenSq_smul, Real.sqrt_mul (sq_nonneg r), Real.sqrt_sq_eq_abs, len]

/-- A nonzero vector normalizes to a unit vector. -/
theorem len_normalize (v : Vec3) (hv : v ≠ 0) : len (normalize v) = 1 := by
  have hlen : len v ≠ 0 := fun h => hv ((len_eq_zero_iff v).mp h)
  unfold normalize
  by_cases h1 : len v = 1
  · simp [h1]
  · rw [if_neg (by push_neg; exact ⟨hlen, h1⟩), len_smul]
    have hpos : 0 < len v := lt_of_le_of_ne (len_nonneg v) (Ne.symm hlen)
    rw [abs_of_pos (by positivity), one_div, inv_mul_cancel₀ hlen]

/-- Distance from a point to that point displaced by `L` times the
normalization of a nonzero vector is `L` (for `0 ≤ L`). -/
theorem len_add_smul_normalize_sub (p d : Vec3) (L : ℝ) (hd : d ≠ 0) (hL : 0 ≤ L) :
    len ((p + L • normalize d) - p) = L := by
  rw [add_sub_cancel_left, len_smul, len_normalize d hd, mul_one, abs_of_nonneg hL]

/-- Helper for evaluating square roots of perfect squares at witnesses. -/
theorem sqrt_eval {a b : ℝ} (hb : 0 ≤ b) (h : b * b = a) : Real.sqrt a = b := by
  rw [← h, show b * b = b ^ 2 by ring, Real.sqrt_sq hb]

end Vec3

/-- A quaternion as stored by Babylon.js (`x`, `y`, `z`, `w` components). -/
structure Quat where
  x : ℝ
  y : ℝ
  z : ℝ
  w : ℝ
deriving DecidableEq

namespace Quat

/-- `Quaternion.Identity()`. -/
def qid : Quat := ⟨0, 0, 0, 1⟩

/-- `Quaternion.multiply` (Babylon `multiplyToRef`): the Hamilton product
`this ⊗ other`, so `parent.multiply(local)` applies `local` first. -/
def mul (q p : Quat) : Quat :=
  ⟨q.x * p.w + q.y * p.z - q.z * p.y + q.w * p.x,
   -q.x * p.z + q.y * p.w + q.z * p.x + q.w * p.y,
   q.x * p.y - q.y * p.x + q.z * p.w + q.w * p.z,
   -q.x * p.x - q.y * p.y - q.z * p.z + q.w * p.w⟩

/-- Quaternion conjugate (used to convert a world rotation to a local one in
`setAbsoluteRotationQuaternion`, whose matrix invert/decompose pipeline
reduces to composing with the inverse parent rotation for rotation-only,
unit-quaternion world transforms). -/
def conj (q : Quat) : Quat := ⟨-q.x, -q.y, -q.z, q.w⟩

/-- Rotation of a vector by a quaternion (Babylon
`Vector3.rotateByQuaternionToRef`, the expanded sandwich product
`q v q⁻¹`). -/
def rotate (q : Quat) (v : Vec3) : Vec3 :=
  let qv : Vec3 := ⟨q.x, q.y, q.z⟩
  let t : Vec3 := (2 : ℝ) • Vec3.cross qv v
  v + q.w • t + Vec3.cross qv t

/-- Rotating by the identity quaternion is the identity. -/
theorem rotate_qid (v : Vec3) : rotate qid v = v := by
  simp [rotate, qid, Vec3.cross, Prod.smul_fst, Prod.smul_snd]

/-- Modelled from the spec: `QuaternionHelper.fromToRotation` (source file not
in the tree) — the shortest-arc rotation taking direction `f` to direction
`t`, built as `⟨f × t, √(|f|²·|t|²) + f ⋅ t⟩` and normalized (the construction
referenced by the spec's step 9 and the linked stackoverflow derivation). -/
def fromToRotation (f t : Vec3) : Quat :=
  let c := Vec3.cross f t
  let w := Real.sqrt (Vec3.lenSq f * Vec3.lenSq t) + Vec3.dot f t
  let n := Real.sqrt (c.1 * c.1 + c.2.1 * c.2.1 + c.2.2 * c.2.2 + w * w)
  if n = 0 then qid else ⟨c.1 / n, c.2.1 / n, c.2.2 / n, w / n⟩

/-- Babylon `Quaternion.RotationYawPitchRoll`, used by
`Vector3.toQuaternion()` with yaw `y`, pitch `x`, roll `z`. -/
def rotationYawPitchRoll (yaw pitch roll : ℝ) : Quat :=
  let sr := Real.sin (roll * 0.5)
  let cr := Real.cos (roll * 0.5)
  let sp := Real.sin (pitch * 0.5)
  let cp := Real.cos (pitch * 0.5)
  let sy := Real.sin (yaw * 0.5)
  let cy := Real.cos (yaw * 0.5)
  ⟨cy * sp * cr + sy * cp * sr,
   sy * cp * cr - cy * sp * sr,
   cy * cp * sr - sy * sp * cr,
   cy * cp * cr + sy * sp * sr⟩

/-- `Vector3.toQuaternion()` on a Euler-angle rotation vector. -/
def ofEuler (rotation : Vec3) : Quat :=
  rotationYawPitchRoll rotation.2.1 rotation.1 rotation.2.2

end Quat

/-- Modelled from the spec: `SphereCollider` (source file not in the tree) — a
sphere collider handed to `VRMSpringBoneLogic.update`, carrying its current
world position and radius (spec §3: local offset resolved per frame to
owner-node absolute position plus offset). -/
structure SphereCollider where
  position : Vec3
  radius : ℝ

/-- The persistent fields of `VRMSpringBoneLogic` (vrm-spring-bone-logic.ts):
`localRotation` (cloned initial local rotation), `boneAxis`, `boneLength`,
`radius`, `centerAbsolutePos`, and the verlet tails `currentTail` /
`prevTail`, the latter stored relative to the center reference. -/
structure SpringState where
  localRotation : Quat
  boneAxis : Vec3
  boneLength : ℝ
  radius : ℝ
  centerAbsolutePos : Vec3
  currentTail : Vec3
  prevTail : Vec3

/-- The scene inputs one `update` call reads from the live scene graph:
`this.transform.getAbsolutePosition()`, the parent's world rotation (what
`getAbsoluteRotationQuaternion(this.transform.parent)` decomposes from the
parent world matrix; `none` when the node has no parent, in which case that
helper returns the identity), and the center node's absolute position
(`none` when no center is configured). -/
structure UpdateCtx where
  absPos : Vec3
  parentRot : Option Quat
  centerPos : Option Vec3

namespace SpringLogic

open Vec3

/-- Line 81: `this.centerAbsolutePos = center ? center.getAbsolutePosition() :
new Vector3(0, 0, 0)`. -/
def centerOf (ctx : UpdateCtx) : Vec3 := ctx.centerPos.getD 0

/-- `getAbsoluteRotationQuaternion(this.transform.parent)`: identity when the
parent is null, otherwise the rotation component of the parent world
matrix. -/
def parentRotOf (ctx : UpdateCtx) : Quat := ctx.parentRot.getD Quat.qid

/-- One iteration of the `colliders.forEach` body of
`VRMSpringBoneLogic.collide` (vrm-spring-bone-logic.ts lines 200-211): with
`r = this.radius + collider.radius` and `axis = nextTail - collider.position`,
when `axis.lengthSquared() <= r * r - 0.02` the tail is reassigned to
`absPos + boneLength * normalize(collider.position + r * normalize(axis)
- absPos)`; otherwise the iteration leaves it untouched. -/
def collideStep (radius boneLength : ℝ) (absPos : Vec3) (c : SphereCollider) (t : Vec3) : Vec3 :=
  let r := radius + c.radius
  let axis := t - c.position
  if lenSq axis ≤ r * r - 0.02 then
    let posFromCollider := c.position + r • normalize axis
    absPos + boneLength • normalize (posFromCollider - absPos)
  else
    t

/-- `VRMSpringBoneLogic.collide`: the `forEach` processes colliders in list
order, each iteration reassigning the captured `nextTail`, so the loop is a
left fold of `collideStep` over the configured list. -/
def collide (radius boneLength : ℝ) (absPos : Vec3) : List SphereCollider → Vec3 → Vec3
  | [], t => t
  | c :: cs, t => collide radius boneLength absPos cs (collideStep radius boneLength absPos c t)

/-- The value accumulated in the vector bound to both `nextTail` and the local
`currentTail` of `update` after the three `addInPlace` calls (lines 86-104).
`let nextTail = currentTail` aliases the freshly translated world tail, and
`addInPlace` mutates the shared vector, so after the inertia, stiffness and
external-force steps the local `currentTail` also holds
`currentTailWorld + (1 - dragForce) * (currentTailWorld - prevTailWorld)
 + stiffnessForce * ((parentRotation ⊗ localRotation) · boneAxis) + external`. -/
def accTail (st : SpringState) (ctx : UpdateCtx) (stiffnessForce dragForce : ℝ)
    (exForce : Vec3) : Vec3 :=
  let centerAbs := centerOf ctx
  let currentTailW := centerAbs + st.currentTail
  let prevTailW := centerAbs + st.prevTail
  currentTailW + (1 - dragForce) • (currentTailW - prevTailW)
    + stiffnessForce • Quat.rotate (Quat.mul (parentRotOf ctx) st.localRotation) st.boneAxis
    + exForce

/-- Lines 105-109: the rigidity constraint rebinds `nextTail` to
`absPos + boneLength * normalize(nextTail - absPos)` (the local `currentTail`
keeps the accumulated value). -/
def constrainedTail (st : SpringState) (ctx : UpdateCtx) (stiffnessForce dragForce : ℝ)
    (exForce : Vec3) : Vec3 :=
  ctx.absPos + st.boneLength • normalize (accTail st ctx stiffnessForce dragForce exForce - ctx.absPos)

/-- Lines 185-192, `transformToRotation(nextTail)`: shortest-arc rotation from
the rest-following-parent axis to the new tail direction, composed (in
Babylon multiply order, `result.multiplyInPlace(rotation)`) with that same
reference rotation. -/
def transformToRotation (st : SpringState) (ctx : UpdateCtx) (nextTail : Vec3) : Quat :=
  let rotation := Quat.mul (parentRotOf ctx) st.localRotation
  let fromAxis := Quat.rotate rotation st.boneAxis
  let toAxis := normalize (nextTail - ctx.absPos)
  Quat.mul (Quat.fromToRotation fromAxis toAxis) rotation

/-- Lines 129-156, `setAbsoluteRotationQuaternion(this.transform, q)`: with a
parent, the matrix compose / parent-inverse / decompose pipeline converts the
requested world rotation into the node's local rotation (composition with the
inverse parent rotation, in Babylon's row-vector matrix order, for
rotation-only decompositions); without a parent the world rotation is stored
directly. -/
def setAbsoluteRotationQuaternion (ctx : UpdateCtx) (q : Quat) : Quat :=
  match ctx.parentRot with
  | some pr => Quat.mul (Quat.conj pr) q
  | none => q

/-- The updated persistent state plus the rotation written onto
`this.transform` by one non-skipped `VRMSpringBoneLogic.update` call
(vrm-spring-bone-logic.ts lines 74-121).  Lines 116-117 store
`getCenterTranslatedPos(currentTail)` into `this.prevTail` — where the local
`currentTail` has been mutated up to the accumulated `accTail` value through
the `nextTail` alias — and `getCenterTranslatedPos(nextTail)` (the collided
constrained tail) into `this.currentTail`. -/
def update (st : SpringState) (ctx : UpdateCtx) (stiffnessForce dragForce : ℝ)
    (exForce : Vec3) (colliders : List SphereCollider) : SpringState × Quat :=
  let centerAbs := centerOf ctx
  let acc := accTail st ctx stiffnessForce dragForce exForce
  let next := collide st.radius st.boneLength ctx.absPos colliders
    (constrainedTail st ctx stiffnessForce dragForce exForce)
  (⟨st.localRotation, st.boneAxis, st.boneLength, st.radius, centerAbs,
    next - centerAbs, acc - centerAbs⟩,
   setAbsoluteRotationQuaternion ctx (transformToRotation st ctx next))

end SpringLogic

/-- The transform state the `VRMSpringBoneLogic` constructor reads and writes
on its parent node: the Euler `rotation` and the nullable
`rotationQuaternion`. -/
structure ParentNode where
  rotation : Vec3
  rotationQuaternion : Option Quat

/-- The transform state the `VRMSpringBoneLogic` constructor reads and writes
on its base node (`TransformNode`): Euler `rotation`, nullable
`rotationQuaternion`, the absolute position, and the nullable parent. -/
structure TNode where
  rotation : Vec3
  rotationQuaternion : Option Quat
  absolutePosition : Vec3
  parent : Option ParentNode

/-- What constructing a `VRMSpringBoneLogic` produces: the initialized spring
state together with the (possibly mutated) base node and parent node. -/
structure ConstructResult where
  state : SpringState
  transformOut : TNode
  parentOut : Option ParentNode

namespace SpringLogic

/-- The `VRMSpringBoneLogic` constructor (vrm-spring-bone-logic.ts lines
34-56): initializes `transform.rotationQuaternion` from the Euler rotation
when it is null (`!transform.rotationQuaternion`), does the same for a
non-null parent when its `rotationQuaternion === null`, then captures
`currentTail = getCenterTranslatedPos(absolutePosition + localChildPosition)`,
`prevTail = currentTail`, `localRotation = rotationQuaternion.clone()`,
`boneAxis = Vector3.Normalize(localChildPosition)` and
`boneLength = localChildPosition.length()`. -/
def construct (center : Option Vec3) (radius : ℝ) (transform : TNode)
    (localChildPosition : Vec3) : ConstructResult :=
  let rq := transform.rotationQuaternion.getD (Quat.ofEuler transform.rotation)
  let transformOut : TNode :=
    ⟨transform.rotation, some rq, transform.absolutePosition, transform.parent⟩
  let parentOut : Option ParentNode :=
    transform.parent.map fun p =>
      match p.rotationQuaternion with
      | none => ⟨p.rotation, some (Quat.ofEuler p.rotation)⟩
      | some q => ⟨p.rotation, some q⟩
  let centerAbs := center.getD 0
  let worldChildPosition := transform.absolutePosition + localChildPosition
  let currentTail := worldChildPosition - centerAbs
  ⟨⟨rq, Vec3.normalize localChildPosition, Vec3.len localChildPosition, radius,
    centerAbs, currentTail, currentTail⟩,
   transformOut, parentOut⟩

open Vec3

/-- Nondegeneracy of one `collide` pass: at every iteration that registers a
hit, the push-out point differs from the node position, so the final
renormalization inside that iteration acts on a nonzero vector.  Defined by
recursion along the collider list, following the tail value the loop actually
carries. -/
def CollideOK (radius boneLength : ℝ) (absPos : Vec3) : List SphereCollider → Vec3 → Prop
  | [], _ => True
  | c :: cs, t =>
      (lenSq (t - c.position) ≤ (radius + c.radius) * (radius + c.radius) - 0.02 →
        c.position + (radius + c.radius) • normalize (t - c.position) ≠ absPos) ∧
      CollideOK radius boneLength absPos cs (collideStep radius boneLength absPos c t)

/-- A nondegenerate collision pass preserves the rigidity distance: if the
incoming tail is at distance `boneLength` from the node, so is the outgoing
tail. -/
theorem collide_preserves_len (radius boneLength : ℝ) (absPos : Vec3)
    (colliders : List SphereCollider) (t : Vec3) (hL : 0 ≤ boneLength)
    (hok : CollideOK radius boneLength absPos colliders t)
    (ht : len (t - absPos) = boneLength) :
    len (collide radius boneLength absPos colliders t - absPos) = boneLength := by
  induction colliders generalizing t with
  | nil => simpa [collide] using ht
  | cons c cs ih =>
      obtain ⟨h1, h2⟩ := hok
      refine ih (collideStep radius boneLength absPos c t) h2 ?_
      unfold collideStep
      by_cases hhit : lenSq (t - c.position) ≤ (radius + c.radius) * (radius + c.radius) - 0.02
      · rw [if_pos hhit]
        exact len_add_smul_normalize_sub absPos _ boneLength
          (sub_ne_zero_of_ne (h1 hhit)) hL
      · rw [if_neg hhit]
        exact ht

end SpringLogic

open SpringLogic in
/-- Claim C1 (amended): for every `VRMSpringBoneLogic.update` that is not
skipped by the validity guard, provided the accumulated tail does not land
exactly on the node's absolute position (so the length constraint
renormalizes a nonzero vector) and every collider hit pushes out to a point
distinct from the node's position, the distance between the node's absolute
position and the world-space tail after the update equals `boneLength`
exactly, hence within the 1e-4 tolerance — for all stiffness, drag and
external-force inputs and collider lists satisfying that nondegeneracy. -/
theorem update_rigidity (st : SpringState) (ctx : UpdateCtx)
    (stiffnessForce dragForce : ℝ) (exForce : Vec3) (colliders : List SphereCollider)
    (hL : 0 ≤ st.boneLength)
    (hacc : accTail st ctx stiffnessForce dragForce exForce - ctx.absPos ≠ 0)
    (hok : CollideOK st.radius st.boneLength ctx.absPos colliders
      (constrainedTail st ctx stiffnessForce dragForce exForce)) :
    Vec3.len (((update st ctx stiffnessForce dragForce exForce colliders).1.centerAbsolutePos
        + (update st ctx stiffnessForce dragForce exForce colliders).1.currentTail)
      - ctx.absPos) = st.boneLength
    ∧ |Vec3.len (((update st ctx stiffnessForce dragForce exForce colliders).1.centerAbsolutePos
        + (update st ctx stiffnessForce dragForce exForce colliders).1.currentTail)
      - ctx.absPos) - st.boneLength| ≤ 1e-4 := by
  have hct : Vec3.len (constrainedTail st ctx stiffnessForce dragForce exForce - ctx.absPos)
      = st.boneLength := by
    unfold constrainedTail
    exact Vec3.len_add_smul_normalize_sub ctx.absPos _ st.boneLength hacc hL
  have hmain : Vec3.len (((update st ctx stiffnessForce dragForce exForce colliders).1.centerAbsolutePos
        + (update st ctx stiffnessForce dragForce exForce colliders).1.currentTail)
      - ctx.absPos) = st.boneLength := by
    show Vec3.len ((centerOf ctx + (collide st.radius st.boneLength ctx.absPos colliders
        (constrainedTail st ctx stiffnessForce dragForce exForce) - centerOf ctx))
      - ctx.absPos) = st.boneLength
    rw [add_sub_cancel]
    exact collide_preserves_len st.radius st.boneLength ctx.absPos colliders _ hL hok hct
  exact ⟨hmain, by rw [hmain]; norm_num⟩

open SpringLogic in
/-- Claim C1 witness: a concrete nondegenerate update — node at the origin, a
5-unit bone pointing along `z`, full drag, zero stiffness, an external force
of `(0,0,-10)`, and one colliding sphere of radius `10` at the rest tail —
satisfies the hypotheses of `update_rigidity`, and the post-update world tail
is at distance `5 = boneLength` from the node. -/
theorem update_rigidity_witness :
    accTail (⟨Quat.qid, (0, 0, 1), 5, 0.1, 0, (0, 0, 5), (0, 0, 5)⟩ : SpringState)
        ⟨0, none, none⟩ 0 1 (0, 0, -10) - (0 : Vec3) ≠ 0
    ∧ CollideOK 0.1 5 0 [⟨(0, 0, 5), 10⟩]
        (constrainedTail (⟨Quat.qid, (0, 0, 1), 5, 0.1, 0, (0, 0, 5), (0, 0, 5)⟩ : SpringState)
          ⟨0, none, none⟩ 0 1 (0, 0, -10))
    ∧ Vec3.len (((update (⟨Quat.qid, (0, 0, 1), 5, 0.1, 0, (0, 0, 5), (0, 0, 5)⟩ : SpringState)
          ⟨0, none, none⟩ 0 1 (0, 0, -10) [⟨(0, 0, 5), 10⟩]).1.centerAbsolutePos
        + (update (⟨Quat.qid, (0, 0, 1), 5, 0.1, 0, (0, 0, 5), (0, 0, 5)⟩ : SpringState)
          ⟨0, none, none⟩ 0 1 (0, 0, -10) [⟨(0, 0, 5), 10⟩]).1.currentTail)
      - (0 : Vec3)) = 5 := by
  have h25 : Real.sqrt 25 = 5 := Vec3.sqrt_eval (by norm_num) (by norm_num)
  have h100 : Real.sqrt 100 = 10 := Vec3.sqrt_eval (by norm_num) (by norm_num)
  have haccv : accTail (⟨Quat.qid, (0, 0, 1), 5, 0.1, 0, (0, 0, 5), (0, 0, 5)⟩ : SpringState)
      ⟨0, none, none⟩ 0 1 (0, 0, -10) = ((0 : ℝ), (0 : ℝ), (-5 : ℝ)) := by
    norm_num [accTail, centerOf, parentRotOf, Prod.mk_add_mk, Prod.mk_sub_mk, Prod.smul_mk]
  have hacc : accTail (⟨Quat.qid, (0, 0, 1), 5, 0.1, 0, (0, 0, 5), (0, 0, 5)⟩ : SpringState)
      ⟨0, none, none⟩ 0 1 (0, 0, -10) - (0 : Vec3) ≠ 0 := by
    rw [haccv]
    intro h
    rw [sub_zero] at h
    simp [Prod.ext_iff] at h
  have hctv : constrainedTail (⟨Quat.qid, (0, 0, 1), 5, 0.1, 0, (0, 0, 5), (0, 0, 5)⟩ : SpringState)
      ⟨0, none, none⟩ 0 1 (0, 0, -10) = ((0 : ℝ), (0 : ℝ), (-5 : ℝ)) := by
    rw [constrainedTail, haccv]
    norm_num [Vec3.normalize, Vec3.len, Vec3.lenSq, h25, Prod.mk_add_mk, Prod.mk_sub_mk,
      Prod.smul_mk]
  have hok : CollideOK 0.1 5 0 [⟨(0, 0, 5), 10⟩]
      (constrainedTail (⟨Quat.qid, (0, 0, 1), 5, 0.1, 0, (0, 0, 5), (0, 0, 5)⟩ : SpringState)
        ⟨0, none, none⟩ 0 1 (0, 0, -10)) := by
    rw [hctv]
    refine ⟨fun _ => ?_, trivial⟩
    norm_num [Vec3.normalize, Vec3.len, Vec3.lenSq, h100, Prod.mk_add_mk, Prod.mk_sub_mk,
      Prod.smul_mk, Prod.ext_iff]
  exact ⟨hacc, hok,
    (update_rigidity (⟨Quat.qid, (0, 0, 1), 5, 0.1, 0, (0, 0, 5), (0, 0, 5)⟩ : SpringState)
      ⟨0, none, none⟩ 0 1 (0, 0, -10) [⟨(0, 0, 5), 10⟩] (by norm_num) hacc hok).1⟩

open SpringLogic in
/-- Claim C1 counterexample: the claim as stated — rigidity "for all
stiffness/drag/external-force inputs and any collider list" — fails at a
concrete non-skipped update (the node's absolute position `(0,0,0)` is
finite).  With a unit bone at rest along `z`, full drag, zero stiffness and
external force `(0,0,-1)`, the accumulated tail lands exactly on the node
position; Babylon's `normalize` returns the zero vector unchanged, so the
"length constraint" leaves the tail at the node and the post-update distance
is `0`, not within `1e-4` of `boneLength = 1`. -/
theorem update_rigidity_counterexample :
    ¬ (|Vec3.len (((update (⟨Quat.qid, (0, 0, 1), 1, 0, 0, (0, 0, 1), (0, 0, 1)⟩ : SpringState)
          ⟨0, none, none⟩ 0 1 (0, 0, -1) []).1.centerAbsolutePos
        + (update (⟨Quat.qid, (0, 0, 1), 1, 0, 0, (0, 0, 1), (0, 0, 1)⟩ : SpringState)
          ⟨0, none, none⟩ 0 1 (0, 0, -1) []).1.currentTail)
      - (0 : Vec3))
      - (update (⟨Quat.qid, (0, 0, 1), 1, 0, 0, (0, 0, 1), (0, 0, 1)⟩ : SpringState)
          ⟨0, none, none⟩ 0 1 (0, 0, -1) []).1.boneLength| ≤ 1e-4) := by
  have haccv : accTail (⟨Quat.qid, (0, 0, 1), 1, 0, 0, (0, 0, 1), (0, 0, 1)⟩ : SpringState)
      ⟨0, none, none⟩ 0 1 (0, 0, -1) = ((0 : ℝ), (0 : ℝ), (0 : ℝ)) := by
    norm_num [accTail, centerOf, parentRotOf, Prod.mk_add_mk, Prod.mk_sub_mk, Prod.smul_mk]
  have hctv : constrainedTail (⟨Quat.qid, (0, 0, 1), 1, 0, 0, (0, 0, 1), (0, 0, 1)⟩ : SpringState)
      ⟨0, none, none⟩ 0 1 (0, 0, -1) = ((0 : ℝ), (0 : ℝ), (0 : ℝ)) := by
    rw [constrainedTail, haccv]
    norm_num [Vec3.normalize, Vec3.len, Vec3.lenSq, Real.sqrt_zero, Prod.mk_add_mk,
      Prod.mk_sub_mk, Prod.smul_mk]
  have hres : Vec3.len (((update (⟨Quat.qid, (0, 0, 1), 1, 0, 0, (0, 0, 1), (0, 0, 1)⟩ : SpringState)
          ⟨0, none, none⟩ 0 1 (0, 0, -1) []).1.centerAbsolutePos
        + (update (⟨Quat.qid, (0, 0, 1), 1, 0, 0, (0, 0, 1), (0, 0, 1)⟩ : SpringState)
          ⟨0, none, none⟩ 0 1 (0, 0, -1) []).1.currentTail)
      - (0 : Vec3)) = 0 := by
    show Vec3.len ((centerOf ⟨0, none, none⟩ + (collide 0 1 (0 : Vec3) []
        (constrainedTail (⟨Quat.qid, (0, 0, 1), 1, 0, 0, (0, 0, 1), (0, 0, 1)⟩ : SpringState)
          ⟨0, none, none⟩ 0 1 (0, 0, -1)) - centerOf ⟨0, none, none⟩)) - (0 : Vec3)) = 0
    rw [collide, hctv]
    norm_num [centerOf, Vec3.len, Vec3.lenSq, Real.sqrt_zero, Prod.mk_add_mk, Prod.mk_sub_mk]
  have hbl : (update (⟨Quat.qid, (0, 0, 1), 1, 0, 0, (0, 0, 1), (0, 0, 1)⟩ : SpringState)
      ⟨0, none, none⟩ 0 1 (0, 0, -1) []).1.boneLength = 1 := rfl
  rw [hres, hbl]
  norm_num

open SpringLogic in
/-- Claim C2: in `VRMSpringBoneLogic.update` the local binding
`let nextTail = currentTail` aliases the freshly translated world tail, and
the subsequent `addInPlace` calls mutate that shared vector; the assignment
`this.prevTail = this.getCenterTranslatedPos(currentTail)` at line 116
therefore stores the force-accumulated vector, not the value `currentTail`
held before the step.  Concretely: from `currentTail = (0,0,1)`,
`prevTail = (0,0,2)`, zero drag, zero stiffness and external force `(0,0,3)`,
the post-update `prevTail` is `(0,0,3)`, which differs from the pre-step
`currentTail = (0,0,1)` that the spec's state-advance rule prescribes. -/
theorem update_prevTail_aliasing :
    (update (⟨Quat.qid, (0, 0, 1), 1, 0, 0, (0, 0, 1), (0, 0, 2)⟩ : SpringState)
        ⟨0, none, none⟩ 0 0 (0, 0, 3) []).1.prevTail = ((0 : ℝ), (0 : ℝ), (3 : ℝ))
    ∧ (update (⟨Quat.qid, (0, 0, 1), 1, 0, 0, (0, 0, 1), (0, 0, 2)⟩ : SpringState)
        ⟨0, none, none⟩ 0 0 (0, 0, 3) []).1.prevTail
      ≠ (⟨Quat.qid, (0, 0, 1), 1, 0, 0, (0, 0, 1), (0, 0, 2)⟩ : SpringState).currentTail := by
  have hp : (update (⟨Quat.qid, (0, 0, 1), 1, 0, 0, (0, 0, 1), (0, 0, 2)⟩ : SpringState)
      ⟨0, none, none⟩ 0 0 (0, 0, 3) []).1.prevTail = ((0 : ℝ), (0 : ℝ), (3 : ℝ)) := by
    show accTail (⟨Quat.qid, (0, 0, 1), 1, 0, 0, (0, 0, 1), (0, 0, 2)⟩ : SpringState)
        ⟨0, none, none⟩ 0 0 (0, 0, 3) - centerOf ⟨0, none, none⟩ = ((0 : ℝ), (0 : ℝ), (3 : ℝ))
    norm_num [accTail, centerOf, parentRotOf, Quat.rotate_qid, Prod.mk_add_mk, Prod.mk_sub_mk,
      Prod.smul_mk]
  refine ⟨hp, ?_⟩
  rw [hp]
  simp [Prod.ext_iff]

open SpringLogic in
/-- Claim C7: colliders are processed in configured list order (`collide`
recurses along the list, threading the tail through `collideStep`, so a later
collider overrides an earlier one's placement).  For one collider: when the
squared distance between the tail and the collider's position exceeds
`(radius + colliderRadius)² - 0.02` the iteration leaves the tail unchanged;
when it does not (a hit), and neither renormalization is degenerate, the
push-out point lies at distance exactly `radius + colliderRadius` from the
collider position and the reprojected tail lies at distance `boneLength`
from the node's position. -/
theorem collideStep_characterization (radius boneLength : ℝ) (absPos : Vec3)
    (c : SphereCollider) (t : Vec3) :
    (¬ Vec3.lenSq (t - c.position) ≤ (radius + c.radius) * (radius + c.radius) - 0.02 →
      collideStep radius boneLength absPos c t = t)
    ∧ (Vec3.lenSq (t - c.position) ≤ (radius + c.radius) * (radius + c.radius) - 0.02 →
       t - c.position ≠ 0 → 0 ≤ radius + c.radius → 0 ≤ boneLength →
       c.position + (radius + c.radius) • Vec3.normalize (t - c.position) - absPos ≠ 0 →
        Vec3.len ((c.position + (radius + c.radius) • Vec3.normalize (t - c.position))
            - c.position) = radius + c.radius
        ∧ Vec3.len (collideStep radius boneLength absPos c t - absPos) = boneLength
        ∧ collideStep radius boneLength absPos c t
            = absPos + boneLength • Vec3.normalize
                ((c.position + (radius + c.radius) • Vec3.normalize (t - c.position)) - absPos))
    ∧ (∀ cs : List SphereCollider,
        collide radius boneLength absPos (c :: cs) t
          = collide radius boneLength absPos cs (collideStep radius boneLength absPos c t)) := by
  refine ⟨fun hmiss => ?_, fun hhit haxis hr hL hpush => ?_, fun cs => rfl⟩
  · unfold collideStep
    rw [if_neg hmiss]
  · have hstep : collideStep radius boneLength absPos c t
        = absPos + boneLength • Vec3.normalize
            ((c.position + (radius + c.radius) • Vec3.normalize (t - c.position)) - absPos) := by
      unfold collideStep
      rw [if_pos hhit]
    refine ⟨?_, ?_, hstep⟩
    · rw [add_sub_cancel_left, Vec3.len_smul, Vec3.len_normalize _ haxis, mul_one,
        abs_of_nonneg hr]
    · rw [hstep]
      exact Vec3.len_add_smul_normalize_sub absPos _ boneLength hpush hL

open SpringLogic in
/-- Claim C7 witness: the hit branch at concrete values — node at the origin,
`radius = 0.1`, `boneLength = 5`, one collider of radius `10` at `(0,0,5)`,
incoming tail `(0,0,-5)`: the squared distance `100` is below
`10.1² - 0.02 = 101.99`, the push-out point `(0,0,-5.1)` is at distance
`10.1` from the collider position, and the reprojected tail is at distance
`5` from the node. -/
theorem collideStep_characterization_witness :
    Vec3.lenSq (((0, 0, -5) : Vec3) - ((0, 0, 5) : Vec3)) ≤ ((0.1 : ℝ) + 10) * (0.1 + 10) - 0.02
    ∧ Vec3.len ((((0, 0, 5) : Vec3) + ((0.1 : ℝ) + 10) • Vec3.normalize (((0, 0, -5) : Vec3) - ((0, 0, 5) : Vec3)))
        - ((0, 0, 5) : Vec3)) = (0.1 : ℝ) + 10
    ∧ Vec3.len (collideStep 0.1 5 0 ⟨((0, 0, 5) : Vec3), 10⟩ ((0, 0, -5) : Vec3) - (0 : Vec3)) = 5 := by
  have h100 : Real.sqrt 100 = 10 := Vec3.sqrt_eval (by norm_num) (by norm_num)
  have hhit : Vec3.lenSq (((0, 0, -5) : Vec3) - ((0, 0, 5) : Vec3))
      ≤ ((0.1 : ℝ) + 10) * (0.1 + 10) - 0.02 := by
    norm_num [Vec3.lenSq, Prod.mk_sub_mk]
  have haxis : ((0, 0, -5) : Vec3) - ((0, 0, 5) : Vec3) ≠ 0 := by
    norm_num [Prod.ext_iff, Prod.mk_sub_mk]
  have hpush : ((0, 0, 5) : Vec3) + ((0.1 : ℝ) + 10) • Vec3.normalize (((0, 0, -5) : Vec3) - ((0, 0, 5) : Vec3))
      - (0 : Vec3) ≠ 0 := by
    norm_num [Vec3.normalize, Vec3.len, Vec3.lenSq, h100, Prod.mk_add_mk, Prod.mk_sub_mk,
      Prod.smul_mk, Prod.ext_iff]
  have hmain := (collideStep_characterization 0.1 5 0 ⟨((0, 0, 5) : Vec3), 10⟩ ((0, 0, -5) : Vec3)).2.1
    hhit haxis (by norm_num) (by norm_num) hpush
  exact ⟨hhit, hmain.1, hmain.2.1⟩

open SpringLogic in
/-- Claim C8 (amended): when a single collider triggers a hit during a
non-skipped, nondegenerate update, the intermediate push-out point lies at
distance `colliderRadius + hitRadius` from the collider position, and the
post-update world tail lies at distance `boneLength` from the node's
position.  The final length reprojection does not in general keep the tail at
distance `colliderRadius + hitRadius` from the collider center (see the
counterexample). -/
theorem collision_containment_amended (st : SpringState) (ctx : UpdateCtx)
    (stiffnessForce dragForce : ℝ) (exForce : Vec3) (c : SphereCollider)
    (hL : 0 ≤ st.boneLength) (hr : 0 ≤ st.radius + c.radius)
    (hhit : Vec3.lenSq (constrainedTail st ctx stiffnessForce dragForce exForce - c.position)
      ≤ (st.radius + c.radius) * (st.radius + c.radius) - 0.02)
    (haxis : constrainedTail st ctx stiffnessForce dragForce exForce - c.position ≠ 0)
    (hpush : c.position + (st.radius + c.radius)
        • Vec3.normalize (constrainedTail st ctx stiffnessForce dragForce exForce - c.position)
      - ctx.absPos ≠ 0) :
    Vec3.len ((c.position + (st.radius + c.radius)
        • Vec3.normalize (constrainedTail st ctx stiffnessForce dragForce exForce - c.position))
      - c.position) = st.radius + c.radius
    ∧ Vec3.len (((update st ctx stiffnessForce dragForce exForce [c]).1.centerAbsolutePos
        + (update st ctx stiffnessForce dragForce exForce [c]).1.currentTail)
      - ctx.absPos) = st.boneLength := by
  constructor
  · rw [add_sub_cancel_left, Vec3.len_smul, Vec3.len_normalize _ haxis, mul_one,
      abs_of_nonneg hr]
  · show Vec3.len ((centerOf ctx + (collide st.radius st.boneLength ctx.absPos [c]
        (constrainedTail st ctx stiffnessForce dragForce exForce) - centerOf ctx))
      - ctx.absPos) = st.boneLength
    rw [add_sub_cancel]
    show Vec3.len (collideStep st.radius st.boneLength ctx.absPos c
        (constrainedTail st ctx stiffnessForce dragForce exForce) - ctx.absPos) = st.boneLength
    unfold collideStep
    rw [if_pos hhit]
    exact Vec3.len_add_smul_normalize_sub ctx.absPos _ st.boneLength hpush hL

open SpringLogic in
/-- Claim C8 witness for the amended statement: the concrete scenario of the
claim — a collider of radius `10` placed at the node's rest tail `(0,0,5)`,
`hitRadius = 0.1`, `boneLength = 5` — where an external force `(0,0,-10)`
swings the constrained tail to `(0,0,-5)` and the collider triggers. -/
theorem collision_containment_amended_witness :
    Vec3.lenSq (constrainedTail (⟨Quat.qid, (0, 0, 1), 5, 0.1, 0, (0, 0, 5), (0, 0, 5)⟩ : SpringState)
        ⟨0, none, none⟩ 0 1 (0, 0, -10) - ((0, 0, 5) : Vec3))
      ≤ ((0.1 : ℝ) + 10) * (0.1 + 10) - 0.02
    ∧ Vec3.len (((update (⟨Quat.qid, (0, 0, 1), 5, 0.1, 0, (0, 0, 5), (0, 0, 5)⟩ : SpringState)
          ⟨0, none, none⟩ 0 1 (0, 0, -10) [⟨(0, 0, 5), 10⟩]).1.centerAbsolutePos
        + (update (⟨Quat.qid, (0, 0, 1), 5, 0.1, 0, (0, 0, 5), (0, 0, 5)⟩ : SpringState)
          ⟨0, none, none⟩ 0 1 (0, 0, -10) [⟨(0, 0, 5), 10⟩]).1.currentTail)
      - (0 : Vec3)) = 5 := by
  have h25 : Real.sqrt 25 = 5 := Vec3.sqrt_eval (by norm_num) (by norm_num)
  have h100 : Real.sqrt 100 = 10 := Vec3.sqrt_eval (by norm_num) (by norm_num)
  have haccv : accTail (⟨Quat.qid, (0, 0, 1), 5, 0.1, 0, (0, 0, 5), (0, 0, 5)⟩ : SpringState)
      ⟨0, none, none⟩ 0 1 (0, 0, -10) = ((0 : ℝ), (0 : ℝ), (-5 : ℝ)) := by
    norm_num [accTail, centerOf, parentRotOf, Prod.mk_add_mk, Prod.mk_sub_mk, Prod.smul_mk]
  have hctv : constrainedTail (⟨Quat.qid, (0, 0, 1), 5, 0.1, 0, (0, 0, 5), (0, 0, 5)⟩ : SpringState)
      ⟨0, none, none⟩ 0 1 (0, 0, -10) = ((0 : ℝ), (0 : ℝ), (-5 : ℝ)) := by
    rw [constrainedTail, haccv]
    norm_num [Vec3.normalize, Vec3.len, Vec3.lenSq, h25, Prod.mk_add_mk, Prod.mk_sub_mk,
      Prod.smul_mk]
  have hhit : Vec3.lenSq (constrainedTail (⟨Quat.qid, (0, 0, 1), 5, 0.1, 0, (0, 0, 5), (0, 0, 5)⟩ : SpringState)
      ⟨0, none, none⟩ 0 1 (0, 0, -10) - ((0, 0, 5) : Vec3))
      ≤ ((0.1 : ℝ) + 10) * (0.1 + 10) - 0.02 := by
    rw [hctv]
    norm_num [Vec3.lenSq, Prod.mk_sub_mk]
  have haxis : constrainedTail (⟨Quat.qid, (0, 0, 1), 5, 0.1, 0, (0, 0, 5), (0, 0, 5)⟩ : SpringState)
      ⟨0, none, none⟩ 0 1 (0, 0, -10) - ((0, 0, 5) : Vec3) ≠ 0 := by
    rw [hctv]
    norm_num [Prod.ext_iff, Prod.mk_sub_mk]
  have hpush : ((0, 0, 5) : Vec3) + ((0.1 : ℝ) + 10)
      • Vec3.normalize (constrainedTail (⟨Quat.qid, (0, 0, 1), 5, 0.1, 0, (0, 0, 5), (0, 0, 5)⟩ : SpringState)
        ⟨0, none, none⟩ 0 1 (0, 0, -10) - ((0, 0, 5) : Vec3)) - (0 : Vec3) ≠ 0 := by
    rw [hctv]
    norm_num [Vec3.normalize, Vec3.len, Vec3.lenSq, h100, Prod.mk_add_mk, Prod.mk_sub_mk,
      Prod.smul_mk, Prod.ext_iff]
  exact ⟨hhit,
    (collision_containment_amended (⟨Quat.qid, (0, 0, 1), 5, 0.1, 0, (0, 0, 5), (0, 0, 5)⟩ : SpringState)
      ⟨0, none, none⟩ 0 1 (0, 0, -10) ⟨(0, 0, 5), 10⟩ (by norm_num) (by norm_num)
      hhit haxis hpush).2⟩

open SpringLogic in
/-- Claim C8 counterexample: in the claim's own scenario — a collider of
radius `R = 10` placed at the node's rest tail `(0,0,5)` (the constructed
`currentTail` of a 5-unit bone from the origin), `hitRadius = 0.1` — with
external force `(0,0,-10)` the collider triggers a hit, yet the post-update
tail `(0,0,-5)` lies at distance `10` from the collider center, not at
`R + hitRadius = 10.1`: the final length reprojection destroys the push-out
distance. -/
theorem collision_containment_counterexample :
    Vec3.lenSq (constrainedTail (⟨Quat.qid, (0, 0, 1), 5, 0.1, 0, (0, 0, 5), (0, 0, 5)⟩ : SpringState)
        ⟨0, none, none⟩ 0 1 (0, 0, -10) - ((0, 0, 5) : Vec3))
      ≤ ((0.1 : ℝ) + 10) * (0.1 + 10) - 0.02
    ∧ Vec3.len (((update (⟨Quat.qid, (0, 0, 1), 5, 0.1, 0, (0, 0, 5), (0, 0, 5)⟩ : SpringState)
          ⟨0, none, none⟩ 0 1 (0, 0, -10) [⟨(0, 0, 5), 10⟩]).1.centerAbsolutePos
        + (update (⟨Quat.qid, (0, 0, 1), 5, 0.1, 0, (0, 0, 5), (0, 0, 5)⟩ : SpringState)
          ⟨0, none, none⟩ 0 1 (0, 0, -10) [⟨(0, 0, 5), 10⟩]).1.currentTail)
      - ((0, 0, 5) : Vec3)) = 10
    ∧ (10 : ℝ) ≠ 0.1 + 10 := by
  have h25 : Real.sqrt 25 = 5 := Vec3.sqrt_eval (by norm_num) (by norm_num)
  have h100 : Real.sqrt 100 = 10 := Vec3.sqrt_eval (by norm_num) (by norm_num)
  have h2601 : Real.sqrt 26.01 = 5.1 := Vec3.sqrt_eval (by norm_num) (by norm_num)
  have h2601i : Real.sqrt 2601 = 51 := Vec3.sqrt_eval (by norm_num) (by norm_num)
  have haccv : accTail (⟨Quat.qid, (0, 0, 1), 5, 0.1, 0, (0, 0, 5), (0, 0, 5)⟩ : SpringState)
      ⟨0, none, none⟩ 0 1 (0, 0, -10) = ((0 : ℝ), (0 : ℝ), (-5 : ℝ)) := by
    norm_num [accTail, centerOf, parentRotOf, Prod.mk_add_mk, Prod.mk_sub_mk, Prod.smul_mk]
  have hctv : constrainedTail (⟨Quat.qid, (0, 0, 1), 5, 0.1, 0, (0, 0, 5), (0, 0, 5)⟩ : SpringState)
      ⟨0, none, none⟩ 0 1 (0, 0, -10) = ((0 : ℝ), (0 : ℝ), (-5 : ℝ)) := by
    rw [constrainedTail, haccv]
    norm_num [Vec3.normalize, Vec3.len, Vec3.lenSq, h25, Prod.mk_add_mk, Prod.mk_sub_mk,
      Prod.smul_mk]
  have hstep : collideStep 0.1 5 0 ⟨((0, 0, 5) : Vec3), 10⟩ ((0, 0, -5) : Vec3)
      = ((0 : ℝ), (0 : ℝ), (-5 : ℝ)) := by
    unfold collideStep
    rw [if_pos (by norm_num [Vec3.lenSq, Prod.mk_sub_mk])]
    norm_num [Vec3.normalize, Vec3.len, Vec3.lenSq, h100, h2601, h2601i, Prod.mk_add_mk,
      Prod.mk_sub_mk, Prod.smul_mk]
  refine ⟨by rw [hctv]; norm_num [Vec3.lenSq, Prod.mk_sub_mk], ?_, by norm_num⟩
  show Vec3.len ((centerOf ⟨0, none, none⟩ + (collide 0.1 5 (0 : Vec3) [⟨(0, 0, 5), 10⟩]
      (constrainedTail (⟨Quat.qid, (0, 0, 1), 5, 0.1, 0, (0, 0, 5), (0, 0, 5)⟩ : SpringState)
        ⟨0, none, none⟩ 0 1 (0, 0, -10)) - centerOf ⟨0, none, none⟩)) - ((0, 0, 5) : Vec3)) = 10
  rw [hctv]
  show Vec3.len ((centerOf ⟨0, none, none⟩ + (collideStep 0.1 5 (0 : Vec3) ⟨(0, 0, 5), 10⟩
      ((0, 0, -5) : Vec3) - centerOf ⟨0, none, none⟩)) - ((0, 0, 5) : Vec3)) = 10
  rw [hstep]
  norm_num [centerOf, Vec3.len, Vec3.lenSq, h100, Prod.mk_add_mk, Prod.mk_sub_mk]

open SpringLogic in
/-- Claim C9: immediately after the `VRMSpringBoneLogic` constructor,
`prevTail` equals `currentTail` (zero implicit verlet velocity),
`boneLength` is the Euclidean length of `localChildPosition`, `boneAxis` is
`Vector3.Normalize(localChildPosition)`, and for nonzero
`localChildPosition` that normalization is `localChildPosition` scaled by
the reciprocal of its length. -/
theorem constructor_init (center : Option Vec3) (radius : ℝ) (transform : TNode)
    (localChildPosition : Vec3) :
    (construct center radius transform localChildPosition).state.prevTail
      = (construct center radius transform localChildPosition).state.currentTail
    ∧ (construct center radius transform localChildPosition).state.boneLength
      = Vec3.len localChildPosition
    ∧ (construct center radius transform localChildPosition).state.boneAxis
      = Vec3.normalize localChildPosition
    ∧ (localChildPosition ≠ 0 →
        (construct center radius transform localChildPosition).state.boneAxis
          = (1 / Vec3.len localChildPosition) • localChildPosition) := by
  refine ⟨rfl, rfl, rfl, fun h => ?_⟩
  show Vec3.normalize localChildPosition = (1 / Vec3.len localChildPosition) • localChildPosition
  unfold Vec3.normalize
  by_cases h1 : Vec3.len localChildPosition = 1
  · rw [if_pos (Or.inr h1), h1]
    norm_num
  · have h0 : Vec3.len localChildPosition ≠ 0 :=
      fun hz => h ((Vec3.len_eq_zero_iff localChildPosition).mp hz)
    rw [if_neg (by push_neg; exact ⟨h0, h1⟩)]

open SpringLogic in
/-- Claim C9 witness: for the concrete `localChildPosition = (0,0,5)` (with a
trivial base node), the constructed state has `prevTail = currentTail` and
`boneAxis = (1 / len (0,0,5)) • (0,0,5)`. -/
theorem constructor_init_witness :
    ((0, 0, 5) : Vec3) ≠ 0
    ∧ (construct none 0 ⟨0, some Quat.qid, 0, none⟩ ((0, 0, 5) : Vec3)).state.prevTail
      = (construct none 0 ⟨0, some Quat.qid, 0, none⟩ ((0, 0, 5) : Vec3)).state.currentTail
    ∧ (construct none 0 ⟨0, some Quat.qid, 0, none⟩ ((0, 0, 5) : Vec3)).state.boneAxis
      = (1 / Vec3.len ((0, 0, 5) : Vec3)) • ((0, 0, 5) : Vec3) := by
  have h : ((0, 0, 5) : Vec3) ≠ 0 := by norm_num [Prod.ext_iff]
  exact ⟨h, (constructor_init none 0 ⟨0, some Quat.qid, 0, none⟩ ((0, 0, 5) : Vec3)).1,
    (constructor_init none 0 ⟨0, some Quat.qid, 0, none⟩ ((0, 0, 5) : Vec3)).2.2.2 h⟩

open SpringLogic in
/-- Claim C10: the `VRMSpringBoneLogic` constructor mutates the supplied
node's transforms: afterwards the node's `rotationQuaternion` is non-null
(initialized from the Euler rotation exactly when it was null), and when the
node has a parent the parent's `rotationQuaternion` is non-null as well. -/
theorem constructor_rotation_init (center : Option Vec3) (radius : ℝ) (transform : TNode)
    (localChildPosition : Vec3) :
    ((construct center radius transform localChildPosition).transformOut.rotationQuaternion).isSome = true
    ∧ (transform.rotationQuaternion = none →
        (construct center radius transform localChildPosition).transformOut.rotationQuaternion
          = some (Quat.ofEuler transform.rotation))
    ∧ (∀ p : ParentNode, transform.parent = some p →
        ∃ p2 : ParentNode,
          (construct center radius transform localChildPosition).parentOut = some p2
          ∧ p2.rotationQuaternion.isSome = true) := by
  refine ⟨rfl, fun h => ?_, fun p hp => ?_⟩
  · show some (transform.rotationQuaternion.getD (Quat.ofEuler transform.rotation))
      = some (Quat.ofEuler transform.rotation)
    rw [h]
    rfl
  · show ∃ p2 : ParentNode,
      transform.parent.map (fun p =>
        match p.rotationQuaternion with
        | none => ⟨p.rotation, some (Quat.ofEuler p.rotation)⟩
        | some q => ⟨p.rotation, some q⟩) = some p2
      ∧ p2.rotationQuaternion.isSome = true
    rw [hp]
    cases hq : p.rotationQuaternion with
    | none => exact ⟨⟨p.rotation, some (Quat.ofEuler p.rotation)⟩, by simp [hq], rfl⟩
    | some q => exact ⟨⟨p.rotation, some q⟩, by simp [hq], rfl⟩

open SpringLogic in
/-- Claim C10 witness: a concrete node whose `rotationQuaternion` is null and
whose parent's is null as well — after construction both are initialized. -/
theorem constructor_rotation_init_witness :
    (⟨0, none, 0, some ⟨0, none⟩⟩ : TNode).rotationQuaternion = none
    ∧ ((construct none 0 ⟨0, none, 0, some ⟨0, none⟩⟩ ((0, 0, 1) : Vec3)).transformOut.rotationQuaternion
        = some (Quat.ofEuler (⟨0, none, 0, some ⟨0, none⟩⟩ : TNode).rotation))
    ∧ (∃ p2 : ParentNode,
        (construct none 0 ⟨0, none, 0, some ⟨0, none⟩⟩ ((0, 0, 1) : Vec3)).parentOut = some p2
        ∧ p2.rotationQuaternion.isSome = true) := by
  refine ⟨rfl, ?_, ?_⟩
  · exact (constructor_rotation_init none 0 ⟨0, none, 0, some ⟨0, none⟩⟩ ((0, 0, 1) : Vec3)).2.1 rfl
  · exact (constructor_rotation_init none 0 ⟨0, none, 0, some ⟨0, none⟩⟩ ((0, 0, 1) : Vec3)).2.2
      ⟨0, none⟩ rfl

/-- A JavaScript number as relevant to the validity guard: either a finite
real or `NaN`.  (Infinities are not produced on the embedded code paths: the
only division, `1.0 / len` in `normalizeFromLength`, is guarded by
`len === 0`, and real-arithmetic overflow is idealized away as in the main
model.) -/
inductive JNum where
  | fin (x : ℝ)
  | nan

namespace JNum

/-- `Number.isNaN`. -/
def isNaN : JNum → Bool
  | nan => true
  | fin _ => false

/-- JavaScript `+` with NaN propagation. -/
def add : JNum → JNum → JNum
  | fin a, fin b => fin (a + b)
  | _, _ => nan

/-- JavaScript `-` with NaN propagation. -/
def sub : JNum → JNum → JNum
  | fin a, fin b => fin (a - b)
  | _, _ => nan

/-- JavaScript `*` with NaN propagation. -/
def mul : JNum → JNum → JNum
  | fin a, fin b => fin (a * b)
  | _, _ => nan

/-- JavaScript `/` with NaN propagation (division by zero unreachable on the
embedded paths, see `JNum`). -/
def div : JNum → JNum → JNum
  | fin a, fin b => if b = 0 then nan else fin (a / b)
  | _, _ => nan

/-- JavaScript `Math.sqrt`: NaN on NaN or negative input. -/
def sqrt : JNum → JNum
  | fin a => if a < 0 then nan else fin (Real.sqrt a)
  | nan => nan

/-- JavaScript `===` on numbers: false whenever either side is NaN. -/
def eqb : JNum → JNum → Bool
  | fin a, fin b => if a = b then true else false
  | _, _ => false

/-- JavaScript `<=` on numbers: false whenever either side is NaN. -/
def leb : JNum → JNum → Bool
  | fin a, fin b => if a ≤ b then true else false
  | _, _ => false

@[simp] theorem isNaN_fin (x : ℝ) : isNaN (fin x) = false := rfl

@[simp] theorem isNaN_nan : isNaN nan = true := rfl

@[simp] theorem add_fin_fin (a b : ℝ) : add (fin a) (fin b) = fin (a + b) := rfl

@[simp] theorem add_nan_right (a : JNum) : add a nan = nan := by cases a <;> rfl

@[simp] theorem add_nan_left (a : JNum) : add nan a = nan := by cases a <;> rfl

@[simp] theorem sub_fin_fin (a b : ℝ) : sub (fin a) (fin b) = fin (a - b) := rfl

@[simp] theorem sub_nan_right (a : JNum) : sub a nan = nan := by cases a <;> rfl

@[simp] theorem sub_nan_left (a : JNum) : sub nan a = nan := by cases a <;> rfl

@[simp] theorem mul_fin_fin (a b : ℝ) : mul (fin a) (fin b) = fin (a * b) := rfl

@[simp] theorem mul_nan_right (a : JNum) : mul a nan = nan := by cases a <;> rfl

@[simp] theorem mul_nan_left (a : JNum) : mul nan a = nan := by cases a <;> rfl

@[simp] theorem div_fin_fin (a b : ℝ) : div (fin a) (fin b) = if b = 0 then nan else fin (a / b) := rfl

@[simp] theorem div_nan_right (a : JNum) : div a nan = nan := by cases a <;> rfl

@[simp] theorem div_nan_left (a : JNum) : div nan a = nan := by cases a <;> rfl

@[simp] theorem sqrt_fin (a : ℝ) : sqrt (fin a) = if a < 0 then nan else fin (Real.sqrt a) := rfl

@[simp] theorem sqrt_nan : sqrt nan = nan := rfl

@[simp] theorem eqb_fin_fin (a b : ℝ) : eqb (fin a) (fin b) = if a = b then true else false := rfl

@[simp] theorem eqb_nan_left (a : JNum) : eqb nan a = false := by cases a <;> rfl

@[simp] theorem eqb_nan_right (a : JNum) : eqb a nan = false := by cases a <;> rfl

@[simp] theorem leb_fin_fin (a b : ℝ) : leb (fin a) (fin b) = if a ≤ b then true else false := rfl

@[simp] theorem leb_nan_left (a : JNum) : leb nan a = false := by cases a <;> rfl

@[simp] theorem leb_nan_right (a : JNum) : leb a nan = false := by cases a <;> rfl

end JNum

/-- A `Vector3` over JavaScript numbers. -/
structure JVec3 where
  x : JNum
  y : JNum
  z : JNum

namespace JVec3

/-- Componentwise vector addition. -/
def add (a b : JVec3) : JVec3 := ⟨a.x.add b.x, a.y.add b.y, a.z.add b.z⟩

/-- Componentwise vector subtraction. -/
def sub (a b : JVec3) : JVec3 := ⟨a.x.sub b.x, a.y.sub b.y, a.z.sub b.z⟩

/-- Scaling by a JavaScript number (`Vector3Helper.multiplyByFloat` /
`scaleInPlace`). -/
def scale (s : JNum) (v : JVec3) : JVec3 := ⟨s.mul v.x, s.mul v.y, s.mul v.z⟩

/-- `Vector3.lengthSquared` over JavaScript numbers. -/
def lenSq (v : JVec3) : JNum := (v.x.mul v.x).add ((v.y.mul v.y).add (v.z.mul v.z))

/-- `Vector3.length` over JavaScript numbers. -/
def len (v : JVec3) : JNum := (lenSq v).sqrt

/-- Babylon `normalize` / `normalizeFromLength` over JavaScript numbers: the
`len === 0 || len === 1` early return (false on NaN), otherwise
`scaleInPlace(1.0 / len)`. -/
def normalize (v : JVec3) : JVec3 :=
  if (len v).eqb (JNum.fin 0) || (len v).eqb (JNum.fin 1) then v
  else scale ((JNum.fin 1).div (len v)) v

/-- The zero vector `new Vector3(0, 0, 0)`. -/
def zero : JVec3 := ⟨JNum.fin 0, JNum.fin 0, JNum.fin 0⟩

/-- `Vector3.Cross` over JavaScript numbers. -/
def cross (a b : JVec3) : JVec3 :=
  ⟨(a.y.mul b.z).sub (a.z.mul b.y),
   (a.z.mul b.x).sub (a.x.mul b.z),
   (a.x.mul b.y).sub (a.y.mul b.x)⟩

/-- `Vector3.Dot` over JavaScript numbers. -/
def dot (a b : JVec3) : JNum := (a.x.mul b.x).add ((a.y.mul b.y).add (a.z.mul b.z))

end JVec3

/-- A quaternion over JavaScript numbers. -/
structure JQuat where
  x : JNum
  y : JNum
  z : JNum
  w : JNum

namespace JQuat

/-- `Quaternion.Identity()` over JavaScript numbers. -/
def qid : JQuat := ⟨JNum.fin 0, JNum.fin 0, JNum.fin 0, JNum.fin 1⟩

/-- Babylon `Quaternion.multiply` (Hamilton product) over JavaScript
numbers. -/
def mul (q p : JQuat) : JQuat :=
  ⟨(((q.x.mul p.w).add (q.y.mul p.z)).sub (q.z.mul p.y)).add (q.w.mul p.x),
   (((JNum.fin 0).sub (q.x.mul p.z)).add ((q.y.mul p.w).add (q.z.mul p.x))).add (q.w.mul p.y),
   (((q.x.mul p.y).sub (q.y.mul p.x)).add (q.z.mul p.w)).add (q.w.mul p.z),
   ((((JNum.fin 0).sub (q.x.mul p.x)).sub (q.y.mul p.y)).sub (q.z.mul p.z)).add (q.w.mul p.w)⟩

/-- Rotation of a vector by a quaternion over JavaScript numbers (mirror of
`Quat.rotate`). -/
def rotate (q : JQuat) (v : JVec3) : JVec3 :=
  let qv : JVec3 := ⟨q.x, q.y, q.z⟩
  let t : JVec3 := JVec3.scale (JNum.fin 2) (JVec3.cross qv v)
  (v.add (JVec3.scale q.w t)).add (JVec3.cross qv t)

/-- Modelled from the spec: `QuaternionHelper.fromToRotation` over JavaScript
numbers (mirror of `Quat.fromToRotation`). -/
def fromToRotation (f t : JVec3) : JQuat :=
  let c := JVec3.cross f t
  let w := ((JVec3.lenSq f).mul (JVec3.lenSq t)).sqrt.add (JVec3.dot f t)
  let n := (((c.x.mul c.x).add ((c.y.mul c.y).add (c.z.mul c.z))).add (w.mul w)).sqrt
  if n.eqb (JNum.fin 0) then qid else ⟨c.x.div n, c.y.div n, c.z.div n, w.div n⟩

/-- Quaternion conjugate over JavaScript numbers. -/
def conj (q : JQuat) : JQuat :=
  ⟨(JNum.fin 0).sub q.x, (JNum.fin 0).sub q.y, (JNum.fin 0).sub q.z, q.w⟩

end JQuat

/-- The persistent `VRMSpringBoneLogic` fields over JavaScript numbers
(mirror of `SpringState` for the non-finite-input analysis). -/
structure JSpringState where
  localRotation : JQuat
  boneAxis : JVec3
  boneLength : JNum
  radius : JNum
  centerAbsolutePos : JVec3
  currentTail : JVec3
  prevTail : JVec3

/-- The scene inputs of one `update` call over JavaScript numbers, together
with the node's current `rotationQuaternion` (so that the per-frame rotation
write is part of the observable result). -/
structure JUpdateCtx where
  absPos : JVec3
  parentRot : Option JQuat
  centerPos : Option JVec3
  nodeRotation : JQuat

/-- A sphere collider over JavaScript numbers. -/
structure JSphereCollider where
  position : JVec3
  radius : JNum

namespace JSpringLogic

/-- One `colliders.forEach` iteration of `collide` over JavaScript numbers
(mirror of `SpringLogic.collideStep`; a NaN squared distance makes the `<=`
comparison false, so the iteration does not fire). -/
def collideStep (radius boneLength : JNum) (absPos : JVec3) (c : JSphereCollider)
    (t : JVec3) : JVec3 :=
  let r := radius.add c.radius
  let axis := t.sub c.position
  if (JVec3.lenSq axis).leb ((r.mul r).sub (JNum.fin 0.02)) then
    let posFromCollider := c.position.add (JVec3.scale r (JVec3.normalize axis))
    absPos.add (JVec3.scale boneLength (JVec3.normalize (posFromCollider.sub absPos)))
  else
    t

/-- `collide` over JavaScript numbers. -/
def collide (radius boneLength : JNum) (absPos : JVec3) :
    List JSphereCollider → JVec3 → JVec3
  | [], t => t
  | c :: cs, t => collide radius boneLength absPos cs (collideStep radius boneLength absPos c t)

/-- The accumulated tail over JavaScript numbers (mirror of
`SpringLogic.accTail`, including the `nextTail`/`currentTail` aliasing). -/
def accTail (st : JSpringState) (ctx : JUpdateCtx) (stiffnessForce dragForce : JNum)
    (exForce : JVec3) : JVec3 :=
  let centerAbs := ctx.centerPos.getD JVec3.zero
  let currentTailW := centerAbs.add st.currentTail
  let prevTailW := centerAbs.add st.prevTail
  ((currentTailW.add
      (JVec3.scale ((JNum.fin 1).sub dragForce) (currentTailW.sub prevTailW))).add
    (JVec3.scale stiffnessForce
      (JQuat.rotate (JQuat.mul (ctx.parentRot.getD JQuat.qid) st.localRotation) st.boneAxis))).add
  exForce

/-- The length-constrained tail over JavaScript numbers (mirror of
`SpringLogic.constrainedTail`). -/
def constrainedTail (st : JSpringState) (ctx : JUpdateCtx) (stiffnessForce dragForce : JNum)
    (exForce : JVec3) : JVec3 :=
  ctx.absPos.add (JVec3.scale st.boneLength
    (JVec3.normalize ((accTail st ctx stiffnessForce dragForce exForce).sub ctx.absPos)))

/-- `transformToRotation` over JavaScript numbers. -/
def transformToRotation (st : JSpringState) (ctx : JUpdateCtx) (nextTail : JVec3) : JQuat :=
  let rotation := JQuat.mul (ctx.parentRot.getD JQuat.qid) st.localRotation
  let fromAxis := JQuat.rotate rotation st.boneAxis
  let toAxis := JVec3.normalize (nextTail.sub ctx.absPos)
  JQuat.mul (JQuat.fromToRotation fromAxis toAxis) rotation

/-- `setAbsoluteRotationQuaternion` over JavaScript numbers. -/
def setAbsoluteRotationQuaternion (ctx : JUpdateCtx) (q : JQuat) : JQuat :=
  match ctx.parentRot with
  | some pr => JQuat.mul (JQuat.conj pr) q
  | none => q

/-- `VRMSpringBoneLogic.update` over JavaScript numbers, including the
validity guard of lines 74-78: `if (Number.isNaN(absPos.x)) return;` — when
the guard fires, no state is mutated and the node's rotation is left as it
was; otherwise the body runs with JavaScript NaN propagation.  The result
pairs the new persistent state with the rotation held by the node after the
call. -/
def update (st : JSpringState) (ctx : JUpdateCtx) (stiffnessForce dragForce : JNum)
    (exForce : JVec3) (colliders : List JSphereCollider) : JSpringState × JQuat :=
  if ctx.absPos.x.isNaN then
    (st, ctx.nodeRotation)
  else
    let centerAbs := ctx.centerPos.getD JVec3.zero
    let acc := accTail st ctx stiffnessForce dragForce exForce
    let next := collide st.radius st.boneLength ctx.absPos colliders
      (constrainedTail st ctx stiffnessForce dragForce exForce)
    (⟨st.localRotation, st.boneAxis, st.boneLength, st.radius, centerAbs,
      next.sub centerAbs, acc.sub centerAbs⟩,
     setAbsoluteRotationQuaternion ctx (transformToRotation st ctx next))

end JSpringLogic

open JSpringLogic in
/-- Claim C4 (amended): the validity guard of `VRMSpringBoneLogic.update`
tests only `Number.isNaN(absPos.x)`.  Whenever the absolute position's `x`
component is NaN, the update is skipped entirely: `currentTail`, `prevTail`
and the node's rotation are all left unchanged (and no exception is raised —
the guarded function is total).  A NaN in `y` or `z`, or an infinite
component, does not trigger the guard (see the counterexample). -/
theorem update_skip_guard (st : JSpringState) (ctx : JUpdateCtx)
    (stiffnessForce dragForce : JNum) (exForce : JVec3)
    (colliders : List JSphereCollider)
    (h : ctx.absPos.x.isNaN = true) :
    update st ctx stiffnessForce dragForce exForce colliders = (st, ctx.nodeRotation) := by
  unfold update
  rw [h]
  simp

open JSpringLogic in
/-- Claim C4 witness: with a NaN `x` component in the absolute position, a
concrete update returns the state and node rotation unchanged. -/
theorem update_skip_guard_witness :
    (JNum.nan.isNaN = true)
    ∧ update
        ⟨JQuat.qid, ⟨JNum.fin 0, JNum.fin 0, JNum.fin 1⟩, JNum.fin 1, JNum.fin 0, JVec3.zero,
          ⟨JNum.fin 0, JNum.fin 0, JNum.fin 1⟩, ⟨JNum.fin 0, JNum.fin 0, JNum.fin 1⟩⟩
        ⟨⟨JNum.nan, JNum.fin 0, JNum.fin 0⟩, none, none, JQuat.qid⟩
        (JNum.fin 1) (JNum.fin 0) JVec3.zero []
      = (⟨JQuat.qid, ⟨JNum.fin 0, JNum.fin 0, JNum.fin 1⟩, JNum.fin 1, JNum.fin 0, JVec3.zero,
          ⟨JNum.fin 0, JNum.fin 0, JNum.fin 1⟩, ⟨JNum.fin 0, JNum.fin 0, JNum.fin 1⟩⟩,
         JQuat.qid) :=
  ⟨rfl,
   update_skip_guard
     ⟨JQuat.qid, ⟨JNum.fin 0, JNum.fin 0, JNum.fin 1⟩, JNum.fin 1, JNum.fin 0, JVec3.zero,
       ⟨JNum.fin 0, JNum.fin 0, JNum.fin 1⟩, ⟨JNum.fin 0, JNum.fin 0, JNum.fin 1⟩⟩
     ⟨⟨JNum.nan, JNum.fin 0, JNum.fin 0⟩, none, none, JQuat.qid⟩
     (JNum.fin 1) (JNum.fin 0) JVec3.zero [] rfl⟩

open JSpringLogic in
/-- Claim C4 counterexample: the claim says an update whose absolute position
has ANY non-finite component is skipped with all state unchanged.  With
`absPos = (0, NaN, 0)` the guard `Number.isNaN(absPos.x)` does not fire
(`x = 0` is finite), the body runs, NaN propagates through the length
constraint, and `currentTail` changes from `(0,0,1)` to an all-NaN vector —
the update is not skipped and the state is corrupted rather than left
unchanged. -/
theorem update_guard_nonfinite_counterexample :
    (⟨JNum.fin 0, JNum.nan, JNum.fin 0⟩ : JVec3).y.isNaN = true
    ∧ (⟨JNum.fin 0, JNum.nan, JNum.fin 0⟩ : JVec3).x.isNaN = false
    ∧ (update
        ⟨JQuat.qid, ⟨JNum.fin 0, JNum.fin 0, JNum.fin 1⟩, JNum.fin 1, JNum.fin 0, JVec3.zero,
          ⟨JNum.fin 0, JNum.fin 0, JNum.fin 1⟩, ⟨JNum.fin 0, JNum.fin 0, JNum.fin 1⟩⟩
        ⟨⟨JNum.fin 0, JNum.nan, JNum.fin 0⟩, none, none, JQuat.qid⟩
        (JNum.fin 0) (JNum.fin 1) JVec3.zero []).1.currentTail
      ≠ ⟨JNum.fin 0, JNum.fin 0, JNum.fin 1⟩ := by
  refine ⟨rfl, rfl, ?_⟩
  have hacc : accTail
      ⟨JQuat.qid, ⟨JNum.fin 0, JNum.fin 0, JNum.fin 1⟩, JNum.fin 1, JNum.fin 0, JVec3.zero,
        ⟨JNum.fin 0, JNum.fin 0, JNum.fin 1⟩, ⟨JNum.fin 0, JNum.fin 0, JNum.fin 1⟩⟩
      ⟨⟨JNum.fin 0, JNum.nan, JNum.fin 0⟩, none, none, JQuat.qid⟩
      (JNum.fin 0) (JNum.fin 1) JVec3.zero
      = ⟨JNum.fin 0, JNum.fin 0, JNum.fin 1⟩ := by
    norm_num [accTail, JVec3.zero, JVec3.add, JVec3.sub, JVec3.scale, JVec3.cross,
      JQuat.qid, JQuat.mul, JQuat.rotate]
  have hct : constrainedTail
      ⟨JQuat.qid, ⟨JNum.fin 0, JNum.fin 0, JNum.fin 1⟩, JNum.fin 1, JNum.fin 0, JVec3.zero,
        ⟨JNum.fin 0, JNum.fin 0, JNum.fin 1⟩, ⟨JNum.fin 0, JNum.fin 0, JNum.fin 1⟩⟩
      ⟨⟨JNum.fin 0, JNum.nan, JNum.fin 0⟩, none, none, JQuat.qid⟩
      (JNum.fin 0) (JNum.fin 1) JVec3.zero
      = ⟨JNum.nan, JNum.nan, JNum.nan⟩ := by
    rw [constrainedTail, hacc]
    norm_num [JVec3.sub, JVec3.lenSq, JVec3.len, JVec3.normalize, JVec3.scale, JVec3.add]
  show (update _ _ _ _ _ _).1.currentTail ≠ _
  unfold update
  rw [if_neg (by norm_num)]
  show (collide (JNum.fin 0) (JNum.fin 1) _ [] (constrainedTail _ _ _ _ _)).sub
      (JVec3.zero) ≠ _
  rw [collide, hct]
  intro hcontra
  have := congrArg JVec3.x hcontra
  simp [JVec3.sub, JVec3.zero] at this

/-- A scene-graph node as the chain builder and per-frame update consume it:
local `position`, Euler `rotation`, nullable `rotationQuaternion`, the
current absolute position, the parent's world rotation (`none` for a root),
and the ordered child list (spec §3: a chain descends to the first child). -/
inductive BNode where
  | mk (position : Vec3) (rotation : Vec3) (rotationQuaternion : Option Quat)
       (absolutePosition : Vec3) (parentRot : Option Quat) (children : List BNode)

namespace BNode

/-- Local position accessor. -/
def position : BNode → Vec3
  | mk p _ _ _ _ _ => p

/-- Euler rotation accessor. -/
def rotation : BNode → Vec3
  | mk _ r _ _ _ _ => r

/-- `rotationQuaternion` accessor. -/
def rotationQuaternion : BNode → Option Quat
  | mk _ _ rq _ _ _ => rq

/-- Absolute position accessor. -/
def absolutePosition : BNode → Vec3
  | mk _ _ _ ap _ _ => ap

/-- Parent world rotation accessor. -/
def parentRot : BNode → Option Quat
  | mk _ _ _ _ pr _ => pr

/-- Children accessor. -/
def children : BNode → List BNode
  | mk _ _ _ _ _ cs => cs

end BNode

/-- One collider entry of the parsed configuration (spec §6). -/
structure SAColliderCfg where
  offset : Vec3
  radius : ℝ

/-- One collider group of the parsed configuration (spec §6). -/
structure SAColliderGroupCfg where
  node : ℤ
  colliders : List SAColliderCfg

/-- One bone group (`boneGroups[]` entry) of the parsed configuration
(spec §6; the field is spelled `stiffiness` as in the source interface). -/
structure SABoneGroupCfg where
  comment : String
  stiffiness : ℝ
  gravityPower : ℝ
  gravityDir : Vec3
  dragForce : ℝ
  center : ℤ
  hitRadius : ℝ
  bones : List ℤ
  colliderGroups : List ℕ

/-- The parsed `IVRMSecondaryAnimation` configuration (spec §6). -/
structure SecondaryAnimationCfg where
  boneGroups : List SABoneGroupCfg
  colliderGroups : List SAColliderGroupCfg

/-- `ConstructSpringsOptions` (spring-bone-controller.ts lines 16-37): every
field optional. -/
structure ConstructSpringsOptions where
  stiffness : Option ℝ
  gravityPower : Option ℝ
  gravityDir : Option Vec3
  dragForce : Option ℝ
  hitRadius : Option ℝ

/-- Modelled from the spec: `ColliderGroup` (source file not in the tree) —
the owner node reference handed over by the controller (the source casts the
possibly-null resolver result, so the owner may be absent) plus the ordered
collider list of `(offset, radius)` pairs appended by `addCollider`
(spec §4.1). -/
structure MColliderGroup where
  transform : Option BNode
  colliders : List (Vec3 × ℝ)

/-- Modelled from the spec: per-frame collider resolution of a group
(spec §4.1) — each collider's world position is the owner node's absolute
position plus the stored offset.  The spec never constructs a group whose
owner is absent (§4.1), so for totality an owner-less group resolves to no
colliders. -/
def groupColliders (g : MColliderGroup) : List SphereCollider :=
  match g.transform with
  | some owner => g.colliders.map fun c => ⟨owner.absolutePosition + c.1, c.2⟩
  | none => []

/-- The embedding of the conditional-override expressions of
`constructSprings` (spring-bone-controller.ts lines 126-146) for numeric
fields: `options?.field ? options.field : authored` — the override is used
only when present and truthy, and a JavaScript number is truthy exactly when
it is nonzero (and not NaN), so a supplied `0` falls back to the authored
value. -/
def pickNum (o : Option ℝ) (authored : ℝ) : ℝ :=
  match o with
  | some v => if v = 0 then authored else v
  | none => authored

/-- The embedding of `options?.gravityDir ? options.gravityDir : ...`
(spring-bone-controller.ts lines 132-139): a `Vector3` object is truthy
whenever present, so any supplied vector — including the zero vector — is
used as-is. -/
def pickVec (o : Option Vec3) (authored : Vec3) : Vec3 :=
  match o with
  | some g => g
  | none => authored

/-- Modelled from the spec: the chain descent of the builder (spec §3) — from
a root bone, repeatedly descend to the first child until a leaf; each
traversed node becomes one segment whose `localChildPosition` is its child's
rest-local position; at a childless leaf the synthetic extension vector
(supplied by the external pre-processing the spec describes) is used. -/
def descendChain (synth : Vec3) : BNode → List (BNode × Vec3)
  | BNode.mk p r rq ap pr [] => [(BNode.mk p r rq ap pr [], synth)]
  | BNode.mk p r rq ap pr (c :: cs) =>
      (BNode.mk p r rq ap pr (c :: cs), c.position) :: descendChain synth c

/-- The spring state constructed for one traversed node (the
`VRMSpringBoneLogic` constructor of `construct`, expressed on `BNode`
inputs). -/
def mkLogic (center : Option BNode) (radius : ℝ) (n : BNode) (lcp : Vec3) : SpringState :=
  let centerAbs := (center.map BNode.absolutePosition).getD 0
  let currentTail := (n.absolutePosition + lcp) - centerAbs
  ⟨(n.rotationQuaternion).getD (Quat.ofEuler n.rotation), Vec3.normalize lcp,
   Vec3.len lcp, radius, centerAbs, currentTail, currentTail⟩

/-- Modelled from the spec: `VRMSpringBone` (source file not in the tree) —
one chain: the physical parameter set, the optional center node, the root
bones handed over by the controller (possibly unresolved, hence optional),
the referenced collider groups (possibly out-of-range indices, hence
optional), and the per-segment verlet states paired with their nodes.
Unresolved root bones contribute no segments (spec §6: missing nodes cause
silent omission, never an error). -/
structure VRMSpringBone where
  comment : String
  stiffness : ℝ
  gravityPower : ℝ
  gravityDir : Vec3
  dragForce : ℝ
  center : Option BNode
  hitRadius : ℝ
  bones : List (Option BNode)
  colliderGroups : List (Option MColliderGroup)
  verletList : List (SpringState × BNode)

/-- Modelled from the spec: the `VRMSpringBone` constructor — for each
resolved root bone, descend the chain and build one verlet segment per
traversed node (spec §3, §4.2); null roots are skipped silently (spec §6). -/
def mkSpring (synth : Vec3) (comment : String) (stiffness gravityPower : ℝ)
    (gravityDir : Vec3) (dragForce : ℝ) (center : Option BNode) (hitRadius : ℝ)
    (bones : List (Option BNode)) (colliderGroups : List (Option MColliderGroup)) :
    VRMSpringBone :=
  ⟨comment, stiffness, gravityPower, gravityDir, dragForce, center, hitRadius,
   bones, colliderGroups,
   (bones.filterMap id).flatMap fun root =>
     (descendChain synth root).map fun nc => (mkLogic center hitRadius nc.1 nc.2, nc.1)⟩

/-- Modelled from the spec: `VRMSpringBone.update(deltaTimeSeconds, options)`
(spec §4.2, §4.3 step 5, §4.4): per-frame parameters are selected by the same
truthy-override rule, the per-node stiffness force scales with the time step,
the external force is the gravity direction scaled by gravity power times the
time step, the referenced collider groups are resolved to world-space
colliders in list order, and every segment is advanced by the per-node
`update`.  (The per-frame write-back of parent rotations to descendant world
transforms is not re-derived here; each segment reads its node's recorded
transform, which no settled claim depends on.) -/
def chainUpdate (dt : ℝ) (options : Option ConstructSpringsOptions)
    (s : VRMSpringBone) : VRMSpringBone :=
  let stiff := pickNum (options.bind ConstructSpringsOptions.stiffness) s.stiffness * dt
  let drag := pickNum (options.bind ConstructSpringsOptions.dragForce) s.dragForce
  let gPower := pickNum (options.bind ConstructSpringsOptions.gravityPower) s.gravityPower
  let gDir := pickVec (options.bind ConstructSpringsOptions.gravityDir) s.gravityDir
  let exForce := (gPower * dt) • gDir
  let colliders := (s.colliderGroups.map fun og => ((og.map groupColliders).getD [])).flatten
  { s with verletList := s.verletList.map fun p =>
      ((SpringLogic.update p.1
          ⟨p.2.absolutePosition, p.2.parentRot, s.center.map BNode.absolutePosition⟩
          stiff drag exForce colliders).1, p.2) }

/-- `SpringBoneController.constructColliderGroups` (spring-bone-controller.ts
lines 91-109): one `ColliderGroup` is constructed and pushed for EVERY
configured group — `getBone(colliderGroup.node) as TransformNode` is not
null-checked — with each collider offset converted from the source
right-handed convention by negating `x` and `z`. -/
def constructColliderGroups (getBone : ℤ → Option BNode) (ext : SecondaryAnimationCfg) :
    List MColliderGroup :=
  ext.colliderGroups.map fun cg =>
    ⟨getBone cg.node,
     cg.colliders.map fun c => ((-c.offset.1, c.offset.2.1, -c.offset.2.2), c.radius)⟩

/-- `SpringBoneController.constructSprings` (spring-bone-controller.ts lines
111-152): one `VRMSpringBone` is constructed and pushed for EVERY bone group;
root bones are resolved with `getBone` and kept even when null; referenced
collider groups are looked up by index (`colliderGroups[g]`, absent when
out of range); each numeric parameter is overridden through the truthy
conditional and `gravityDir` through object-presence, the authored direction
being X/Z-negated and normalized. -/
def constructSprings (getBone : ℤ → Option BNode) (colliderGroups : List MColliderGroup)
    (options : Option ConstructSpringsOptions) (synth : Vec3)
    (ext : SecondaryAnimationCfg) : List VRMSpringBone :=
  ext.boneGroups.map fun sp =>
    mkSpring synth sp.comment
      (pickNum (options.bind ConstructSpringsOptions.stiffness) sp.stiffiness)
      (pickNum (options.bind ConstructSpringsOptions.gravityPower) sp.gravityPower)
      (pickVec (options.bind ConstructSpringsOptions.gravityDir)
        (Vec3.normalize (-sp.gravityDir.1, sp.gravityDir.2.1, -sp.gravityDir.2.2)))
      (pickNum (options.bind ConstructSpringsOptions.dragForce) sp.dragForce)
      (getBone sp.center)
      (pickNum (options.bind ConstructSpringsOptions.hitRadius) sp.hitRadius)
      (sp.bones.map getBone)
      (sp.colliderGroups.map fun g => colliderGroups.get? g)

/-- `SpringBoneController.update` line 84: the elapsed milliseconds are
clamped to `[0, 125]` and divided by 1000. -/
def clampDelta (deltaTime : ℝ) : ℝ :=
  max 0 (min 125 deltaTime) / 1000

/-- `SpringBoneController.update` (spring-bone-controller.ts lines 82-89):
clamp the delta, then drive every spring with it (the `Promise.all` over
per-spring updates joins all chains; each chain's update reads only its own
state, so the join is the per-chain map). -/
def controllerUpdate (deltaTime : ℝ) (options : Option ConstructSpringsOptions)
    (springs : List VRMSpringBone) : List VRMSpringBone :=
  springs.map (chainUpdate (clampDelta deltaTime) options)

/-- Claim C5: `SpringBoneController.update` clamps the supplied delta (in
milliseconds) to the inclusive range `[0, 125]` and divides by 1000; in
particular `update(5000)` and `update(125)` both drive every chain with the
identical step `0.125` seconds and produce identical resulting state. -/
theorem controller_update_clamp :
    (∀ dt : ℝ, 0 ≤ clampDelta dt ∧ clampDelta dt ≤ 0.125)
    ∧ clampDelta 5000 = 0.125
    ∧ clampDelta 125 = 0.125
    ∧ ∀ (options : Option ConstructSpringsOptions) (springs : List VRMSpringBone),
        controllerUpdate 5000 options springs = controllerUpdate 125 options springs := by
  have h5000 : clampDelta 5000 = 0.125 := by norm_num [clampDelta]
  have h125 : clampDelta 125 = 0.125 := by norm_num [clampDelta]
  refine ⟨fun dt => ⟨?_, ?_⟩, h5000, h125, fun options springs => ?_⟩
  · exact div_nonneg (le_max_left 0 _) (by norm_num)
  · have hmin : min (125 : ℝ) dt ≤ 125 := min_le_left _ _
    have hmax : max (0 : ℝ) (min 125 dt) ≤ 125 := max_le (by norm_num) hmin
    unfold clampDelta
    rw [div_le_iff₀ (by norm_num : (0:ℝ) < 1000)]
    linarith
  · unfold controllerUpdate
    rw [h5000, h125]

/-- Claim C6 (amended): the override conditionals of `constructSprings`: a
numeric override is used only when present and nonzero — a supplied `0`
falls back to the authored value — while `gravityDir`, tested by object
presence, is used whenever supplied, including as the zero vector; and the
constructed springs' `stiffness` and `gravityDir` fields are exactly these
selections over the authored configuration (the authored direction being
X/Z-negated and normalized, the override used as-is). -/
theorem override_selection :
    (∀ v authored : ℝ, v ≠ 0 → pickNum (some v) authored = v)
    ∧ (∀ authored : ℝ, pickNum (some 0) authored = authored)
    ∧ (∀ authored : ℝ, pickNum none authored = authored)
    ∧ (∀ g authored : Vec3, pickVec (some g) authored = g)
    ∧ (∀ authored : Vec3, pickVec none authored = authored)
    ∧ (∀ (getBone : ℤ → Option BNode) (groups : List MColliderGroup)
        (options : Option ConstructSpringsOptions) (synth : Vec3)
        (ext : SecondaryAnimationCfg),
        (constructSprings getBone groups options synth ext).map VRMSpringBone.stiffness
          = ext.boneGroups.map fun sp =>
              pickNum (options.bind ConstructSpringsOptions.stiffness) sp.stiffiness)
    ∧ (∀ (getBone : ℤ → Option BNode) (groups : List MColliderGroup)
        (options : Option ConstructSpringsOptions) (synth : Vec3)
        (ext : SecondaryAnimationCfg),
        (constructSprings getBone groups options synth ext).map VRMSpringBone.gravityDir
          = ext.boneGroups.map fun sp =>
              pickVec (options.bind ConstructSpringsOptions.gravityDir)
                (Vec3.normalize (-sp.gravityDir.1, sp.gravityDir.2.1, -sp.gravityDir.2.2))) := by
  refine ⟨fun v authored hv => by simp [pickNum, hv], fun authored => by simp [pickNum],
    fun authored => by simp [pickNum], fun g authored => rfl, fun authored => rfl,
    fun getBone groups options synth ext => ?_, fun getBone groups options synth ext => ?_⟩
  · simp [constructSprings, mkSpring, List.map_map, Function.comp]
  · simp [constructSprings, mkSpring, List.map_map, Function.comp]

/-- Claim C6 witness: a nonzero numeric override is used in place of the
authored value. -/
theorem override_selection_witness :
    (5 : ℝ) ≠ 0 ∧ pickNum (some 5) 3 = 5 :=
  ⟨by norm_num, override_selection.1 5 3 (by norm_num)⟩

/-- Claim C6 counterexample: the claim says an override field supplied as
exactly zero falls back to the authored value for every parameter, including
`gravityDir`.  But `options?.gravityDir ? ... : ...` tests object presence:
supplying the zero VECTOR as `gravityDir` override yields a constructed
spring whose `gravityDir` is the zero vector, not the authored direction
`(0,-1,0)` (whose converted form is itself, a unit vector). -/
theorem override_gravityDir_zero_counterexample :
    (constructSprings (fun _ => none) []
        (some ⟨none, none, some ((0, 0, 0) : Vec3), none, none⟩) 0
        ⟨[⟨"hair", 1, 1, (0, -1, 0), 0.4, -1, 0.02, [], []⟩], []⟩).map VRMSpringBone.gravityDir
      = [((0, 0, 0) : Vec3)]
    ∧ ((0, 0, 0) : Vec3) ≠ Vec3.normalize (-(0 : ℝ), (-1 : ℝ), -(0 : ℝ)) := by
  constructor
  · simp [constructSprings, mkSpring, pickVec]
  · have h1 : Vec3.normalize (-(0 : ℝ), (-1 : ℝ), -(0 : ℝ))
        = ((0 : ℝ), (-1 : ℝ), (0 : ℝ)) := by
      norm_num [Vec3.normalize, Vec3.len, Vec3.lenSq, Real.sqrt_one]
    rw [h1]
    norm_num [Prod.ext_iff]

/-- Claim C3 counterexample: the claim says a chain whose root-bone index
fails to resolve, or a collider group whose node fails to resolve, is
OMITTED from the controller's lists.  With a resolver that only resolves
index `0`, a configuration of two bone groups (roots `0` and `1`) and one
collider group on unresolvable node `7` still yields a springs list of
length 2 and a collider-group list of length 1: `constructSprings` and
`constructColliderGroups` push one entry per configured group
unconditionally — nothing is omitted. -/
theorem construct_no_omission_counterexample :
    (fun i : ℤ => if i = 0 then some (BNode.mk 0 0 (some Quat.qid) 0 none []) else none) 1 = none
    ∧ (fun i : ℤ => if i = 0 then some (BNode.mk 0 0 (some Quat.qid) 0 none []) else none) 7 = none
    ∧ (constructSprings
        (fun i : ℤ => if i = 0 then some (BNode.mk 0 0 (some Quat.qid) 0 none []) else none)
        (constructColliderGroups
          (fun i : ℤ => if i = 0 then some (BNode.mk 0 0 (some Quat.qid) 0 none []) else none)
          ⟨[⟨"a", 1, 1, (0, -1, 0), 0.4, -1, 0.02, [0], []⟩,
            ⟨"b", 1, 1, (0, -1, 0), 0.4, -1, 0.02, [1], []⟩], [⟨7, []⟩]⟩)
        none 0
        ⟨[⟨"a", 1, 1, (0, -1, 0), 0.4, -1, 0.02, [0], []⟩,
          ⟨"b", 1, 1, (0, -1, 0), 0.4, -1, 0.02, [1], []⟩], [⟨7, []⟩]⟩).length = 2
    ∧ (constructColliderGroups
        (fun i : ℤ => if i = 0 then some (BNode.mk 0 0 (some Quat.qid) 0 none []) else none)
        ⟨[⟨"a", 1, 1, (0, -1, 0), 0.4, -1, 0.02, [0], []⟩,
          ⟨"b", 1, 1, (0, -1, 0), 0.4, -1, 0.02, [1], []⟩], [⟨7, []⟩]⟩).length = 1 := by
  refine ⟨by norm_num, by norm_num, ?_, ?_⟩
  · simp [constructSprings]
  · simp [constructColliderGroups]

/-- Claim C3 (amended): for every configuration and resolver, the controller
constructor is a total function — no exception is raised; the affected chain
or collider group is NOT omitted (the lists keep one entry per configured
group; see the counterexample); a bone group none of whose root-bone indices
resolve yields a chain with no simulated segments (modelled from the spec's
missing-node tolerance for the out-of-tree `VRMSpringBone`); and every chain
is updated by applying the per-chain update to its own state alone, so all
other chains update normally. -/
theorem construct_missing_reference_tolerant (getBone : ℤ → Option BNode)
    (options : Option ConstructSpringsOptions) (synth : Vec3)
    (ext : SecondaryAnimationCfg) (dt : ℝ) :
    (constructSprings getBone (constructColliderGroups getBone ext) options synth ext).length
      = ext.boneGroups.length
    ∧ (constructColliderGroups getBone ext).length = ext.colliderGroups.length
    ∧ (∀ (i : ℕ)
        (h : i < (constructSprings getBone (constructColliderGroups getBone ext) options synth
          ext).length)
        (h2 : i < ext.boneGroups.length),
        ((ext.boneGroups.get ⟨i, h2⟩).bones.map getBone).filterMap id = [] →
          ((constructSprings getBone (constructColliderGroups getBone ext) options synth
            ext).get ⟨i, h⟩).verletList = [])
    ∧ controllerUpdate dt options
        (constructSprings getBone (constructColliderGroups getBone ext) options synth ext)
      = (constructSprings getBone (constructColliderGroups getBone ext) options synth ext).map
          (chainUpdate (clampDelta dt) options) := by
  refine ⟨by simp [constructSprings], by simp [constructColliderGroups], ?_, rfl⟩
  intro i h h2 hempty
  unfold constructSprings at h ⊢
  rw [List.get_map]
  simp only [mkSpring]
  rw [hempty]
  simp

/-- Claim C3 witness (for the amended statement): in the two-group
configuration whose second chain's only root-bone index `1` does not
resolve, that chain is built with no simulated segments, while the lists keep
one entry per group. -/
theorem construct_missing_reference_tolerant_witness :
    (((⟨[⟨"a", 1, 1, (0, -1, 0), 0.4, -1, 0.02, [0], []⟩,
         ⟨"b", 1, 1, (0, -1, 0), 0.4, -1, 0.02, [1], []⟩], [⟨7, []⟩]⟩ :
        SecondaryAnimationCfg).boneGroups.get ⟨1, by norm_num⟩).bones.map
      (fun i : ℤ => if i = 0 then some (BNode.mk 0 0 (some Quat.qid) 0 none []) else none)).filterMap
        id = []
    ∧ ((constructSprings
        (fun i : ℤ => if i = 0 then some (BNode.mk 0 0 (some Quat.qid) 0 none []) else none)
        (constructColliderGroups
          (fun i : ℤ => if i = 0 then some (BNode.mk 0 0 (some Quat.qid) 0 none []) else none)
          ⟨[⟨"a", 1, 1, (0, -1, 0), 0.4, -1, 0.02, [0], []⟩,
            ⟨"b", 1, 1, (0, -1, 0), 0.4, -1, 0.02, [1], []⟩], [⟨7, []⟩]⟩)
        none 0
        ⟨[⟨"a", 1, 1, (0, -1, 0), 0.4, -1, 0.02, [0], []⟩,
          ⟨"b", 1, 1, (0, -1, 0), 0.4, -1, 0.02, [1], []⟩], [⟨7, []⟩]⟩).get
        ⟨1, by simp [constructSprings]⟩).verletList = [] := by
  have h1 : (((⟨[⟨"a", 1, 1, (0, -1, 0), 0.4, -1, 0.02, [0], []⟩,
        ⟨"b", 1, 1, (0, -1, 0), 0.4, -1, 0.02, [1], []⟩], [⟨7, []⟩]⟩ :
      SecondaryAnimationCfg).boneGroups.get ⟨1, by norm_num⟩).bones.map
      (fun i : ℤ => if i = 0 then some (BNode.mk 0 0 (some Quat.qid) 0 none []) else none)).filterMap
        id = [] := by
    norm_num [List.filterMap]
  exact ⟨h1,
    (construct_missing_reference_tolerant
      (fun i : ℤ => if i = 0 then some (BNode.mk 0 0 (some Quat.qid) 0 none []) else none)
      none 0
      ⟨[⟨"a", 1, 1, (0, -1, 0), 0.4, -1, 0.02, [0], []⟩,
        ⟨"b", 1, 1, (0, -1, 0), 0.4, -1, 0.02, [1], []⟩], [⟨7, []⟩]⟩ 0).2.2.1 1
      (by simp [constructSprings]) (by norm_num) h1⟩
